import Mathlib

/-!
Verification development for the module-graph construction core
(`crates/rspack_core/src/compiler/queue.rs`).

The Rust source is shallowly embedded: trait objects become structures of
data, `&mut` parameters become explicit state passing, `Result` becomes an
explicit outcome type, and process-aborting panics are modelled as a
distinguished `panic` outcome variant.  Hash maps are modelled as
association lists, hash sets as `Finset`s over strings (paths) or derived
types.  One-shot callbacks (`ModuleCreationCallback`, `QueueHandleCallback`)
are external closures; we model them by presence tokens / numeric
identifiers and record their invocations explicitly.
-/

namespace RspackQueue

/-- Stable identity of a module (`ModuleIdentifier`), modelled as a string. -/
abbrev ModuleIdentifier := String

/-- Stable identity of a dependency (`DependencyId`), modelled as a number. -/
abbrev DependencyId := Nat

/-- A context directory (`Context`); paths are modelled as strings. -/
abbrev Context := String

/-- A filesystem path (`PathBuf`), modelled as a string. -/
abbrev Path := String

/-- Error type (`rspack_error::Error`): carries a message and the optional
source text attached by `with_source_code`. -/
structure RspackErrorStub where
  message : String
  source_code : Option String
deriving DecidableEq

/-- Outcome of running a fallible Rust function: `Ok`, `Err`, or a
process-aborting `panic!` / `.expect` (kept distinct from ordinary errors,
as the design notes require). -/
inductive Outcome (α : Type) where
  | ok : α → Outcome α
  | error : RspackErrorStub → Outcome α
  | panic : String → Outcome α
deriving DecidableEq

/-- A Rust `Result` carried as data (used for collaborator outcomes that
cannot panic): `Ok` or `Err`. -/
inductive RustResult (α : Type) where
  | ok : α → RustResult α
  | error : RspackErrorStub → RustResult α
deriving DecidableEq

/-- Attach source text to an error (`Error::with_source_code`). -/
def RspackErrorStub.with_source_code (e : RspackErrorStub) (s : String) :
    RspackErrorStub :=
  { e with source_code := some s }

/-- Diagnostic (`rspack_error::Diagnostic`): message plus the module it is
attributed to, if known. -/
structure Diagnostic where
  message : String
  module_identifier : Option ModuleIdentifier
deriving DecidableEq

/-- Conversion of an error into a diagnostic (the `e.into()` at the
tolerant-mode push). -/
def RspackErrorStub.toDiagnostic (e : RspackErrorStub) : Diagnostic :=
  { message := e.message, module_identifier := none }

/-- Attribution of a diagnostic to a module (`with_module_identifier`). -/
def Diagnostic.with_module_identifier (d : Diagnostic)
    (m : Option ModuleIdentifier) : Diagnostic :=
  { d with module_identifier := m }

/-- Usage state of an export (`UsageState`), `Unknown` initially. -/
inductive UsageState where
  | Unused
  | OnlyPropertiesUsed
  | NoInfo
  | Unknown
  | Used
deriving DecidableEq

/-- Export info entry (`ExportInfo`).  In the source a fresh arena id is
allocated by `ExportInfo::new`; the arena lives outside this file, so ids
are represented by the values themselves. -/
structure ExportInfo where
  name : Option String
  usage : UsageState
deriving DecidableEq

/-- Constructor `ExportInfo::new(name, usage_state, None)`. -/
def ExportInfo.new (name : Option String) (usage : UsageState) : ExportInfo :=
  { name := name, usage := usage }

/-- Exports info (`ExportsInfo`): references (by id in the source, by value
here) the two sentinel export-info entries. -/
structure ExportsInfo where
  other_exports_info : ExportInfo
  side_effects_only_info : ExportInfo
deriving DecidableEq

/-- Constructor `ExportsInfo::new(other_id, side_effects_only_id)`. -/
def ExportsInfo.new (other side : ExportInfo) : ExportsInfo :=
  { other_exports_info := other, side_effects_only_info := side }

/-- Struct `ExportsInfoRelated`, temporarily used creating `ExportsInfo`. -/
structure ExportsInfoRelated where
  exports_info : ExportsInfo
  other_exports_info : ExportInfo
  side_effects_info : ExportInfo
deriving DecidableEq

/-- Resolve options (`Resolve`); contents are out of scope. -/
abbrev Resolve := Unit

/-- Profiling handle (`ModuleProfile`); its `mark_*` methods are pure side
effects for timing, so the handle carries no data here. -/
abbrev ModuleProfile := Unit

/-- Compiler options (`CompilerOptions`): the fields this file reads. -/
structure CompilerOptions where
  bail : Bool
  context : Context
deriving DecidableEq

/-- A dependency (`BoxDependency` trait object): its stable id and its
optional declared context directory (`get_context`). -/
structure Dependency where
  id : DependencyId
  context : Option Context
deriving DecidableEq

/-- Module source text (`BoxSource`); only `source().to_string()` is used. -/
abbrev BoxSource := String

/-- Build result (`BuildResult`): the dependencies discovered by the build;
other fields (build info, blocks) are not read by this file. -/
structure BuildResult where
  dependencies : List DependencyId
deriving DecidableEq

/-- A value together with accumulated diagnostics
(`TWithDiagnosticArray<BuildResult>`). -/
structure BuildResultWithDiagnostics where
  inner : BuildResult
  diagnostics : List Diagnostic
deriving DecidableEq

/-- Append diagnostics (`with_diagnostic`). -/
def BuildResultWithDiagnostics.with_diagnostic
    (t : BuildResultWithDiagnostics) (ds : List Diagnostic) :
    BuildResultWithDiagnostics :=
  { t with diagnostics := t.diagnostics ++ ds }

/-- Split into value and diagnostics (`split_into_parts`). -/
def BuildResultWithDiagnostics.split_into_parts
    (t : BuildResultWithDiagnostics) : BuildResult × List Diagnostic :=
  (t.inner, t.diagnostics)

/-- A module (`Box<dyn Module>` trait object), modelled by the data the
queue code observes: its identifier, whether `as_self_module()` is `Some`,
its cloned diagnostics, and the result of its external `build` method (the
build body is an out-of-scope collaborator, so its result is carried as
data on the module). -/
structure Module where
  identifier : ModuleIdentifier
  is_self_module : Bool
  diagnostics : List Diagnostic
  build_result : RustResult BuildResultWithDiagnostics
deriving DecidableEq

/-- Result of a successful module-factory call (`ModuleFactoryResult`):
the constructed module. -/
structure ModuleFactoryResult where
  module : Module
deriving DecidableEq

/-- Input to the module factory (`ModuleFactoryCreateData`).  The source
also carries shared mutable sets (file / context / missing dependencies,
diagnostics) that the factory fills in; since the factory is modelled as a
function, those filled-in sets are returned in `ModuleFactoryCreateOutcome`
instead, and they start empty exactly as in the source. -/
structure ModuleFactoryCreateData where
  resolve_options : Option Resolve
  context : Context
  dependency : Dependency
  issuer : Option String
  issuer_identifier : Option ModuleIdentifier
deriving DecidableEq

/-- Everything a `ModuleFactory::create` call leaves behind: its `Result`,
plus the shared mutable sets on the create data after the call. -/
structure ModuleFactoryCreateOutcome where
  result : RustResult ModuleFactoryResult
  file_dependencies : Finset Path
  context_dependencies : Finset Path
  missing_dependencies : Finset Path
  diagnostics : List Diagnostic

/-- Module factory (`Arc<dyn ModuleFactory>` trait object): an external
collaborator `create(data) -> Result<FactoryResult>`, modelled as a
function from the create data. -/
abbrev ModuleFactory := ModuleFactoryCreateData → ModuleFactoryCreateOutcome

/-- One-shot module-creation callback (`ModuleCreationCallback`); the
closure body is external, so only its presence is modelled, and the run
functions report whether they invoked it. -/
abbrev ModuleCreationCallback := Unit

/-- Factorize task (`FactorizeTask`).  The resolver factories, plugin
driver and cache handles it carries are opaque collaborators not read by
`FactorizeTask::run` and are omitted. -/
structure FactorizeTask where
  module_factory : ModuleFactory
  original_module_identifier : Option ModuleIdentifier
  original_module_source : Option BoxSource
  original_module_context : Option Context
  issuer : Option String
  dependency : Dependency
  dependencies : List DependencyId
  is_entry : Bool
  resolve_options : Option Resolve
  options : CompilerOptions
  lazy_visit_modules : Finset String
  current_profile : Option ModuleProfile
  connect_origin : Bool
  callback : Option ModuleCreationCallback

/-- Factorize result (`FactorizeTaskResult`). -/
structure FactorizeTaskResult where
  dependency : DependencyId
  original_module_identifier : Option ModuleIdentifier
  factory_result : Option ModuleFactoryResult
  dependencies : List DependencyId
  is_entry : Bool
  current_profile : Option ModuleProfile
  exports_info_related : ExportsInfoRelated
  file_dependencies : Finset Path
  context_dependencies : Finset Path
  missing_dependencies : Finset Path
  diagnostics : List Diagnostic
  callback : Option ModuleCreationCallback
  connect_origin : Bool
deriving DecidableEq

/-- Builder `with_factory_result`. -/
def FactorizeTaskResult.with_factory_result (r : FactorizeTaskResult)
    (f : Option ModuleFactoryResult) : FactorizeTaskResult :=
  { r with factory_result := f }

/-- Builder `with_diagnostics`. -/
def FactorizeTaskResult.with_diagnostics (r : FactorizeTaskResult)
    (ds : List Diagnostic) : FactorizeTaskResult :=
  { r with diagnostics := ds }

/-- Builder `with_file_dependencies`. -/
def FactorizeTaskResult.with_file_dependencies (r : FactorizeTaskResult)
    (files : Finset Path) : FactorizeTaskResult :=
  { r with file_dependencies := files }

/-- Builder `with_context_dependencies`. -/
def FactorizeTaskResult.with_context_dependencies (r : FactorizeTaskResult)
    (contexts : Finset Path) : FactorizeTaskResult :=
  { r with context_dependencies := contexts }

/-- Builder `with_missing_dependencies`. -/
def FactorizeTaskResult.with_missing_dependencies (r : FactorizeTaskResult)
    (missing : Finset Path) : FactorizeTaskResult :=
  { r with missing_dependencies := missing }

/-- Effective context resolution at the start of `FactorizeTask::run`:
the dependency's own context, else the originating module's context, else
the compilation root. -/
def FactorizeTask.effectiveContext (t : FactorizeTask) : Context :=
  match t.dependency.context with
  | some c => c
  | none =>
    match t.original_module_context with
    | some c => c
    | none => t.options.context

/-- Create data assembled by `FactorizeTask::run` before calling the
factory; the shared mutable sets start empty. -/
def FactorizeTask.createData (t : FactorizeTask) : ModuleFactoryCreateData :=
  { resolve_options := t.resolve_options
  , context := t.effectiveContext
  , dependency := t.dependency
  , issuer := t.issuer
  , issuer_identifier := t.original_module_identifier }

/-- Error annotation on factory failure: wrap the originating module's
source code if available. -/
def FactorizeTask.annotateError (t : FactorizeTask) (e : RspackErrorStub) :
    RspackErrorStub :=
  match t.original_module_source with
  | some s => e.with_source_code s
  | none => e

/-! Association-list helpers, modelling the hash maps of the source. -/

/-- Lookup in an association list by key. -/
def alLookup {κ α : Type} [DecidableEq κ] (k : κ) : List (κ × α) → Option α
  | [] => none
  | (k', v) :: rest => if k' = k then some v else alLookup k rest

/-- Insert or replace a binding (hash-map `insert`). -/
def alInsert {κ α : Type} [DecidableEq κ] (k : κ) (v : α) :
    List (κ × α) → List (κ × α)
  | [] => [(k, v)]
  | (k', v') :: rest =>
    if k' = k then (k, v) :: rest else (k', v') :: alInsert k v rest

/-- Remove a binding by key. -/
def alRemove {κ α : Type} [DecidableEq κ] (k : κ) :
    List (κ × α) → List (κ × α)
  | [] => []
  | (k', v) :: rest =>
    if k' = k then alRemove k rest else (k', v) :: alRemove k rest

/-- Push a value onto the list stored under a key, creating the entry if
absent (`entry(key).or_default().push(v)`). -/
def alPush {κ α : Type} [DecidableEq κ] (k : κ) (v : α) :
    List (κ × List α) → List (κ × List α)
  | [] => [(k, [v])]
  | (k', vs) :: rest =>
    if k' = k then (k', vs ++ [v]) :: rest else (k', vs) :: alPush k v rest

/-- Empty the list stored under a key, keeping the (now empty) entry, as
popping every element of the stored vector does. -/
def alClear {κ α : Type} [DecidableEq κ] (k : κ) :
    List (κ × List α) → List (κ × List α)
  | [] => []
  | (k', vs) :: rest =>
    if k' = k then (k', []) :: rest else (k', vs) :: alClear k rest

/-! Module-graph model.

The module graph lives in `rspack_core` outside the excerpted source file;
its operations used by `queue.rs` are modelled from the spec (sections 3,
4.2 and 4.5). -/

/-- A resolved edge record: who (optionally) depends, via which
dependency.  Incoming connections of a graph node are sets of these. -/
structure ModuleGraphConnection where
  original_module_identifier : Option ModuleIdentifier
  dependency_id : DependencyId
deriving DecidableEq

/-- Modelled from the spec: `ModuleGraphModule`, the node wrapper
integrated into the shared graph; owns the reverse-edge set of incoming
connections, an optional issuer (`get_issuer().identifier()`), and the
dependency ids the module itself declares (used to compute the modules it
depends on). -/
structure ModuleGraphModule where
  module_identifier : ModuleIdentifier
  issuer : Option ModuleIdentifier
  incoming_connections : Finset ModuleGraphConnection
  all_dependencies : List DependencyId
deriving DecidableEq

/-- Modelled from the spec: `ModuleGraph`, the per-compilation shared state
mapping module identifiers to graph nodes and dependency ids to resolved
modules; `dependencies` is the set of dependency ids known to the graph
(an unknown id makes edge resolution a graph-consistency error). -/
structure ModuleGraph where
  module_graph_modules : List (ModuleIdentifier × ModuleGraphModule)
  dependency_modules : List (DependencyId × ModuleIdentifier)
  dependencies : List DependencyId
deriving DecidableEq

/-- Lookup of a graph node (`module_graph_module_by_identifier`). -/
def ModuleGraph.module_graph_module_by_identifier (mg : ModuleGraph)
    (id : ModuleIdentifier) : Option ModuleGraphModule :=
  alLookup id mg.module_graph_modules

/-- Add an incoming connection to the node with the given identifier,
leaving every other entry (and every key) unchanged. -/
def updateIncoming (orig : Option ModuleIdentifier) (d : DependencyId)
    (target : ModuleIdentifier) :
    List (ModuleIdentifier × ModuleGraphModule) →
    List (ModuleIdentifier × ModuleGraphModule)
  | [] => []
  | (k, mgm) :: rest =>
    let c : ModuleGraphConnection := ModuleGraphConnection.mk orig d
    let mgm' :=
      if k = target then
        { mgm with incoming_connections := insert c mgm.incoming_connections }
      else mgm
    (k, mgm') :: updateIncoming orig d target rest

/-- Whether the claimed originating module is known to the graph (part of
the graph-consistency side condition of edge resolution). -/
def ModuleGraph.origin_known (mg : ModuleGraph)
    (original_module_identifier : Option ModuleIdentifier) : Bool :=
  match original_module_identifier with
  | some o => (mg.module_graph_module_by_identifier o).isSome
  | none => true

/-- Modelled from the spec: `ModuleGraph::set_resolved_module` resolves the
edge for one dependency id to a target module: it records the dependency
resolution and adds the reverse edge to the target node, and it fails with
a graph-consistency error if the originating module or the dependency id
is unknown. -/
def ModuleGraph.set_resolved_module (mg : ModuleGraph)
    (original_module_identifier : Option ModuleIdentifier)
    (dependency : DependencyId) (module_identifier : ModuleIdentifier) :
    Outcome ModuleGraph :=
  if mg.dependencies.contains dependency &&
      mg.origin_known original_module_identifier then
    .ok { mg with
      dependency_modules := alInsert dependency module_identifier
        mg.dependency_modules
      module_graph_modules := updateIncoming original_module_identifier
        dependency module_identifier mg.module_graph_modules }
  else
    .error { message := "graph consistency error", source_code := none }

/-- Modelled from the spec: `ModuleGraph::add_module_graph_module` inserts
the node keyed by its identifier; the graph invariant keeps a module
present at most once, so insertion of an already-present identity leaves
the graph unchanged. -/
def ModuleGraph.add_module_graph_module (mg : ModuleGraph)
    (mgm : ModuleGraphModule) : ModuleGraph :=
  if (mg.module_graph_module_by_identifier mgm.module_identifier).isSome then
    mg
  else
    { mg with module_graph_modules :=
        mg.module_graph_modules ++ [(mgm.module_identifier, mgm)] }

/-- Modelled from the spec: `get_module_all_depended_modules` collects, for
a present node, the modules its dependencies resolve to. -/
def ModuleGraph.get_module_all_depended_modules (mg : ModuleGraph)
    (id : ModuleIdentifier) : Option (List ModuleIdentifier) :=
  (mg.module_graph_module_by_identifier id).map fun mgm =>
    mgm.all_dependencies.filterMap fun d => alLookup d mg.dependency_modules

/-- Modelled from the spec: `revoke_module` removes the node from the
graph. -/
def ModuleGraph.revoke_module (mg : ModuleGraph) (id : ModuleIdentifier) :
    ModuleGraph :=
  { mg with module_graph_modules := alRemove id mg.module_graph_modules }

/-- Number of graph nodes stored under an identity. -/
def ModuleGraph.nodeCount (mg : ModuleGraph) (id : ModuleIdentifier) : Nat :=
  mg.module_graph_modules.countP fun p => decide (p.1 = id)

/-- The slice of `Compilation` the queue code touches: the module graph and
the entry-module set. -/
structure Compilation where
  module_graph : ModuleGraph
  entry_module_identifiers : Finset ModuleIdentifier
deriving DecidableEq

/-! Add stage. -/

/-- Add task (`AddTask`). -/
structure AddTask where
  original_module_identifier : Option ModuleIdentifier
  module : Module
  module_graph_module : ModuleGraphModule
  dependencies : List DependencyId
  is_entry : Bool
  current_profile : Option ModuleProfile
  connect_origin : Bool
  callback : Option ModuleCreationCallback
deriving DecidableEq

/-- Add result (`AddTaskResult`). -/
inductive AddTaskResult where
  | ModuleReused (module : Module)
  | ModuleAdded (module : Module) (current_profile : Option ModuleProfile)
deriving DecidableEq

/-! Build stage result and remaining stage types, needed by
`TaskResult`. -/

/-- Build result record (`BuildTaskResult`). -/
structure BuildTaskResult where
  module : Module
  build_result : BuildResult
  diagnostics : List Diagnostic
  current_profile : Option ModuleProfile
  from_cache : Bool
deriving DecidableEq

/-- Process-dependencies task (`ProcessDependenciesTask`). -/
structure ProcessDependenciesTask where
  original_module_identifier : ModuleIdentifier
  dependencies : List DependencyId
  resolve_options : Option Resolve
deriving DecidableEq

/-- Process-dependencies result (`ProcessDependenciesResult`): only the
originating module identity, a pure synchronization milestone. -/
structure ProcessDependenciesResult where
  module_identifier : ModuleIdentifier
deriving DecidableEq

/-- Tagged union of stage results (`TaskResult`); the boxes of the source
are dropped. -/
inductive TaskResult where
  | Factorize (r : FactorizeTaskResult)
  | Add (r : AddTaskResult)
  | Build (r : BuildTaskResult)
  | ProcessDependencies (r : ProcessDependenciesResult)
deriving DecidableEq

/-- Discriminator: is this result an `Add(ModuleAdded)`. -/
def TaskResult.isModuleAdded : TaskResult → Bool
  | .Add (.ModuleAdded _ _) => true
  | _ => false

/-- Discriminator: is this result an `Add(ModuleReused)`. -/
def TaskResult.isModuleReused : TaskResult → Bool
  | .Add (.ModuleReused _) => true
  | _ => false

/-- Free function `set_resolved_module`: resolve every dependency edge in
the list, stopping at the first failure. -/
def set_resolved_module (module_graph : ModuleGraph)
    (original_module_identifier : Option ModuleIdentifier)
    (dependencies : List DependencyId)
    (module_identifier : ModuleIdentifier) : Outcome ModuleGraph :=
  match dependencies with
  | [] => .ok module_graph
  | d :: rest =>
    match module_graph.set_resolved_module original_module_identifier d
        module_identifier with
    | .ok mg => set_resolved_module mg original_module_identifier rest
        module_identifier
    | .error e => .error e
    | .panic m => .panic m

/-- Output of `AddTask::run`: the returned `TaskResult`, the compilation
after the `&mut` mutations, and whether the one-shot module-creation
callback was invoked (instrumentation for the external closure). -/
structure AddRunOutput where
  result : TaskResult
  compilation : Compilation
  callback_invoked : Bool
deriving DecidableEq

/-- Embedding of `AddTask::run`.  Profiling marks are timing side effects
and are skipped.  The `.expect("self module should have issuer")` of the
source is the `panic` branch. -/
def AddTask.run (t : AddTask) (compilation : Compilation) :
    Outcome AddRunOutput :=
  if t.module.is_self_module && t.connect_origin then
    match t.module_graph_module.issuer with
    | none => .panic "self module should have issuer"
    | some issuer =>
      match set_resolved_module compilation.module_graph
          t.original_module_identifier t.dependencies issuer with
      | .error e => .error e
      | .panic m => .panic m
      | .ok mg =>
        .ok { result := .Add (.ModuleReused t.module)
            , compilation := { compilation with module_graph := mg }
            , callback_invoked := false }
  else
    let module_identifier := t.module.identifier
    if t.connect_origin &&
        (compilation.module_graph.module_graph_module_by_identifier
          module_identifier).isSome then
      match set_resolved_module compilation.module_graph
          t.original_module_identifier t.dependencies module_identifier with
      | .error e => .error e
      | .panic m => .panic m
      | .ok mg =>
        .ok { result := .Add (.ModuleReused t.module)
            , compilation := { compilation with module_graph := mg }
            , callback_invoked := t.callback.isSome }
    else
      let mg0 := compilation.module_graph.add_module_graph_module
        t.module_graph_module
      match (if t.connect_origin then
          set_resolved_module mg0 t.original_module_identifier
            t.dependencies module_identifier
        else .ok mg0) with
      | .error e => .error e
      | .panic m => .panic m
      | .ok mg1 =>
        let entries :=
          if t.is_entry then
            insert module_identifier compilation.entry_module_identifiers
          else compilation.entry_module_identifiers
        .ok { result := .Add (.ModuleAdded t.module t.current_profile)
            , compilation := { module_graph := mg1
                             , entry_module_identifiers := entries }
            , callback_invoked := t.callback.isSome }

/-! Clean stage. -/

/-- Clean task (`CleanTask`). -/
structure CleanTask where
  module_identifier : ModuleIdentifier
deriving DecidableEq

/-- Clean result (`CleanTaskResult`). -/
inductive CleanTaskResult where
  | ModuleIsUsed (module_identifier : ModuleIdentifier)
  | ModuleIsCleaned (module_identifier : ModuleIdentifier)
      (dependent_module_identifiers : List ModuleIdentifier)
deriving DecidableEq

/-- Embedding of `CleanTask::run`.  The source's
`.expect("should have module")` cannot fire because the node lookup just
succeeded on the same graph; the `getD` below is that same value. -/
def CleanTask.run (t : CleanTask) (compilation : Compilation) :
    CleanTaskResult × Compilation :=
  let module_identifier := t.module_identifier
  match compilation.module_graph.module_graph_module_by_identifier
      module_identifier with
  | none => (.ModuleIsCleaned module_identifier [], compilation)
  | some mgm =>
    if mgm.incoming_connections ≠ ∅ then
      (.ModuleIsUsed module_identifier, compilation)
    else
      let dependent_module_identifiers :=
        (compilation.module_graph.get_module_all_depended_modules
          module_identifier).getD []
      (.ModuleIsCleaned module_identifier dependent_module_identifiers,
        { compilation with module_graph :=
            compilation.module_graph.revoke_module module_identifier })

/-! Factorize stage run. -/

/-- Embedding of `FactorizeTask::run`.  Profiling marks are timing side
effects and are skipped.  The factory call is the task's `module_factory`
function applied to the create data; its shared-mutable outputs are the
fields of the returned `ModuleFactoryCreateOutcome`. -/
def FactorizeTask.run (t : FactorizeTask) : Outcome TaskResult :=
  let dep_id := t.dependency.id
  let other_exports_info := ExportInfo.new none UsageState.Unknown
  let side_effects_only_info :=
    ExportInfo.new (some "*side effects only*") UsageState.Unknown
  let exports_info := ExportsInfo.new other_exports_info side_effects_only_info
  let factorize_task_result : FactorizeTaskResult :=
    { dependency := dep_id
    , original_module_identifier := t.original_module_identifier
    , factory_result := none
    , dependencies := t.dependencies
    , is_entry := t.is_entry
    , current_profile := t.current_profile
    , exports_info_related :=
        { exports_info := exports_info
        , other_exports_info := other_exports_info
        , side_effects_info := side_effects_only_info }
    , file_dependencies := ∅
    , context_dependencies := ∅
    , missing_dependencies := ∅
    , diagnostics := []
    , callback := t.callback
    , connect_origin := t.connect_origin }
  let create_data := t.createData
  let outcome := t.module_factory create_data
  match outcome.result with
  | .ok result =>
    let r1 := factorize_task_result.with_factory_result (some result)
    let r2 := r1.with_diagnostics outcome.diagnostics
    let r3 := r2.with_file_dependencies outcome.file_dependencies
    let r4 := r3.with_missing_dependencies outcome.missing_dependencies
    let r5 := r4.with_context_dependencies outcome.context_dependencies
    .ok (.Factorize r5)
  | .error e =>
    let e := t.annotateError e
    if t.options.bail then
      .error e
    else
      let diagnostics := e.toDiagnostic :: outcome.diagnostics
      let r1 := factorize_task_result.with_diagnostics diagnostics
      let r2 := r1.with_file_dependencies outcome.file_dependencies
      let r3 := r2.with_missing_dependencies outcome.missing_dependencies
      let r4 := r3.with_context_dependencies outcome.context_dependencies
      .ok (.Factorize r4)

/-! Build stage. -/

/-- A hook firing observed during `BuildTask::run`; the instrumentation
trace of a run lists these in order. -/
inductive HookEvent where
  | buildModule
  | succeedModule
  | stillValidModule
deriving DecidableEq

/-- Plugin driver (`SharedPluginDriver`, an external collaborator): the
results its three build-stage hooks would report for the module at hand,
carried as data. -/
structure PluginDriver where
  build_module_result : RustResult Unit
  succeed_module_result : RustResult Unit
  still_valid_module_result : RustResult Unit
deriving DecidableEq

/-- Modelled from the spec: the cache occasion decides, by module identity
and input fingerprint, whether to run the build closure or replay a
previous result; `is_cache_valid` is that verdict, `cached_result` the
replayed previous output, and `infra_error` a failure of the cache
machinery itself (fatal for the pipeline). -/
structure BuildModuleOccasion where
  is_cache_valid : Bool
  cached_result : RustResult BuildResultWithDiagnostics
  infra_error : Option RspackErrorStub
deriving DecidableEq

/-- Cache handle (`Arc<Cache>`): the slice used here. -/
structure Cache where
  build_module_occasion : BuildModuleOccasion
deriving DecidableEq

/-- Build task (`BuildTask`); the resolver factory and queue handler it
carries are opaque collaborators only forwarded into the build context and
are omitted. -/
structure BuildTask where
  module : Module
  compiler_options : CompilerOptions
  plugin_driver : PluginDriver
  cache : Cache
  current_profile : Option ModuleProfile
deriving DecidableEq

/-- The async build closure passed to `use_cache` by `BuildTask::run`:
fire `build_module` (panicking if the hook fails), run the module's own
build, fire `succeed_module` (panicking if it fails), then attach the
module's diagnostics, tagged with its identity, to the build output.
Returns the closure result together with the hook events fired. -/
def BuildTask.buildClosure (t : BuildTask) (module : Module) :
    Outcome (BuildResultWithDiagnostics × Module) × List HookEvent :=
  match t.plugin_driver.build_module_result with
  | .error e =>
    (.panic ("Run build_module hook failed: " ++ e.message),
      [HookEvent.buildModule])
  | .ok _ =>
    let result := module.build_result
    match t.plugin_driver.succeed_module_result with
    | .error e =>
      (.panic ("Run succeed_module hook failed: " ++ e.message),
        [HookEvent.buildModule, HookEvent.succeedModule])
    | .ok _ =>
      match result with
      | .error e => (.error e, [HookEvent.buildModule, HookEvent.succeedModule])
      | .ok tval =>
        let ds := module.diagnostics.map fun d =>
          d.with_module_identifier (some module.identifier)
        (.ok (tval.with_diagnostic ds, module),
          [HookEvent.buildModule, HookEvent.succeedModule])

/-- Modelled from the spec: `use_cache(module, build_closure)` returns the
build output and the cache-hit flag; on a hit the closure is not run and
the previous result is replayed, on a miss the closure runs; an error of
the wrapper itself is reported in the outer layer. -/
def BuildModuleOccasion.use_cache (occ : BuildModuleOccasion)
    (module : Module)
    (closure :
      Module → Outcome (BuildResultWithDiagnostics × Module) × List HookEvent) :
    Outcome (RustResult BuildResultWithDiagnostics × Bool) × List HookEvent :=
  match occ.infra_error with
  | some e => (.error e, [])
  | none =>
    if occ.is_cache_valid then
      (.ok (occ.cached_result, true), [])
    else
      match closure module with
      | (.ok (tval, _m), tr) => (.ok (.ok tval, false), tr)
      | (.error e, tr) => (.ok (.error e, false), tr)
      | (.panic m, tr) => (.panic m, tr)

/-- Embedding of `BuildTask::run`, returning the outcome together with the
trace of hook events.  A `use_cache` wrapper error is the source's
`panic!("build module get error")`; a `still_valid_module` hook error is
propagated as an ordinary error (the `?` in the source); the module in the
result is the task's module (only the out-of-scope build mutates it). -/
def BuildTask.run (t : BuildTask) : Outcome TaskResult × List HookEvent :=
  match t.cache.build_module_occasion.use_cache t.module t.buildClosure with
  | (.panic m, tr) => (.panic m, tr)
  | (.error e, tr) => (.panic ("build module get error: " ++ e.message), tr)
  | (.ok (build_result, is_cache_valid), tr) =>
    let afterHook : Outcome Unit × List HookEvent :=
      if is_cache_valid then
        match t.plugin_driver.still_valid_module_result with
        | .ok _ => (.ok (), tr ++ [HookEvent.stillValidModule])
        | .error e => (.error e, tr ++ [HookEvent.stillValidModule])
      else (.ok (), tr)
    match afterHook with
    | (.error e, tr2) => (.error e, tr2)
    | (.panic m, tr2) => (.panic m, tr2)
    | (.ok _, tr2) =>
      match build_result with
      | .error e => (.error e, tr2)
      | .ok tval =>
        let parts := tval.split_into_parts
        (.ok (.Build
          { module := t.module
          , build_result := parts.1
          , diagnostics := parts.2
          , current_profile := t.current_profile
          , from_cache := is_cache_valid }), tr2)

/-! Completion bus (QueueHandler / QueueHandlerProcessor). -/

/-- Build-time execution options (`BuildTimeExecutionOption`). -/
structure BuildTimeExecutionOption where
  public_path : Option String
  base_uri : Option String
deriving DecidableEq

/-- Build-time execution task (`BuildTimeExecutionTask`); its result
channel endpoint is an external handle and is omitted. -/
structure BuildTimeExecutionTask where
  module : ModuleIdentifier
  request : String
  options : BuildTimeExecutionOption
deriving DecidableEq

/-- Wait task (`WaitTask`): the milestone to wait on. -/
inductive WaitTask where
  | Factorize (d : DependencyId)
  | Add (m : ModuleIdentifier)
  | Build (m : ModuleIdentifier)
  | ProcessDependencies (m : ModuleIdentifier)
deriving DecidableEq

/-- Wait key (`WaitTaskKey`): the entity identity inside a bucket. -/
inductive WaitTaskKey where
  | Dependency (d : DependencyId)
  | Identifier (m : ModuleIdentifier)
deriving DecidableEq

/-- Result delivered to waiters (`WaitTaskResult`). -/
abbrev WaitTaskResult := ModuleIdentifier

/-- Subscription (`Subscription`): a wait task plus its one-shot callback.
The callback closure body is external; it is identified by a number, and
firings are recorded as (identifier, result) events. -/
structure Subscription where
  task : WaitTask
  callback : Nat
deriving DecidableEq

/-- Ingestion-channel message (`QueueTask`). -/
inductive QueueTask where
  | Factorize (t : FactorizeTask)
  | Add (t : AddTask)
  | Build (t : BuildTask)
  | ProcessDependencies (t : ProcessDependenciesTask)
  | BuildTimeExecution (t : BuildTimeExecutionTask)
  | Subscription (s : Subscription)

/-- Bucket selection (`QueueHandlerProcessor::get_bucket_and_key`). -/
def get_bucket_and_key : WaitTask → Nat × WaitTaskKey
  | .Factorize dep_id => (0, .Dependency dep_id)
  | .Add m => (1, .Identifier m)
  | .Build m => (2, .Identifier m)
  | .ProcessDependencies m => (3, .Identifier m)

/-- The worker queues handed to `try_process` by mutable reference
(`WorkerQueue` is an external FIFO acceptor; a queue is its task list). -/
structure WorkerQueues where
  factorize_queue : List FactorizeTask
  add_queue : List AddTask
  build_queue : List BuildTask
  process_dependencies_queue : List ProcessDependenciesTask
  buildtime_execution_queue : List BuildTimeExecutionTask

/-- State of `QueueHandlerProcessor` together with the worker queues that
`try_process` forwards into and the instrumentation log of fired
callbacks.  The source's `[HashMap<WaitTaskKey, _>; 4]` bucket arrays are
modelled as single association lists keyed by (bucket index, wait key). -/
structure BusState where
  receiver : List QueueTask
  callbacks : List ((Nat × WaitTaskKey) × List Nat)
  finished : List ((Nat × WaitTaskKey) × WaitTaskResult)
  queues : WorkerQueues
  fired : List (Nat × WaitTaskResult)

/-- Processing of a single received message inside the `try_process`
drain loop: forward work to its queue; for a subscription, fire at once if
the milestone already finished, else store the callback. -/
def BusState.processOne (s : BusState) (task : QueueTask) : BusState :=
  match task with
  | .Factorize t =>
    { s with queues :=
        { s.queues with factorize_queue := s.queues.factorize_queue ++ [t] } }
  | .Add t =>
    { s with queues :=
        { s.queues with add_queue := s.queues.add_queue ++ [t] } }
  | .Build t =>
    { s with queues :=
        { s.queues with build_queue := s.queues.build_queue ++ [t] } }
  | .ProcessDependencies t =>
    { s with queues :=
        { s.queues with process_dependencies_queue :=
            s.queues.process_dependencies_queue ++ [t] } }
  | .BuildTimeExecution t =>
    { s with queues :=
        { s.queues with buildtime_execution_queue :=
            s.queues.buildtime_execution_queue ++ [t] } }
  | .Subscription sub =>
    let bk := get_bucket_and_key sub.task
    match alLookup bk s.finished with
    | some module => { s with fired := s.fired ++ [(sub.callback, module)] }
    | none => { s with callbacks := alPush bk sub.callback s.callbacks }

/-- The drain loop of `try_process` over an already-received message
list. -/
def drainList : List QueueTask → BusState → BusState
  | [], s => s
  | t :: rest, s => drainList rest (s.processOne t)

/-- Embedding of `QueueHandlerProcessor::try_process`: drain every message
currently in the channel.  (Callback bodies are external; a callback that
re-enters the handler mid-drain is outside this model.) -/
def BusState.try_process (s : BusState) : BusState :=
  drainList s.receiver { s with receiver := [] }

/-- Embedding of `QueueHandlerProcessor::complete_task`: record the result
in the bucket's finished table, then pop and fire every pending callback
for that key (a stack, so last-registered-first). -/
def BusState.complete_task (s : BusState) (task : WaitTask)
    (task_result : WaitTaskResult) : BusState :=
  let bk := get_bucket_and_key task
  let s1 := { s with finished := alInsert bk task_result s.finished }
  match alLookup bk s1.callbacks with
  | none => s1
  | some cbs =>
    { s1 with callbacks := alClear bk s1.callbacks
            , fired := s1.fired ++ cbs.reverse.map fun cb => (cb, task_result) }

/-- Public handle (`QueueHandler`): the sender end of the ingestion
channel; `connected` records whether the receiver still exists (its drop
makes the bus unreachable, a fatal condition surfaced by `.expect`). -/
structure QueueHandler where
  connected : Bool
  channel : List QueueTask

/-- Embedding of `QueueHandler::add_task`. -/
def QueueHandler.add_task (h : QueueHandler) (task : QueueTask) :
    Outcome (Unit × QueueHandler) :=
  if h.connected then
    .ok ((), { h with channel := h.channel ++ [task] })
  else
    .panic "Unexpected dropped receiver"

/-- Embedding of `QueueHandler::wait_for`: registers the subscription, no
return value. -/
def QueueHandler.wait_for (h : QueueHandler) (wait_task : WaitTask)
    (callback : Nat) : Outcome QueueHandler :=
  if h.connected then
    .ok { h with channel := h.channel ++
        [QueueTask.Subscription { task := wait_task, callback := callback }] }
  else
    .panic "failed to wait task"

/-- Operations driving the bus from the coordinating thread: a message
arriving on the channel, a drain, or a milestone completion. -/
inductive BusOp where
  | send (t : QueueTask)
  | tryProcess
  | completeTask (task : WaitTask) (result : WaitTaskResult)

/-- One bus operation applied to the state. -/
def BusState.applyOp (s : BusState) : BusOp → BusState
  | .send t => { s with receiver := s.receiver ++ [t] }
  | .tryProcess => s.try_process
  | .completeTask w r => s.complete_task w r

/-- A sequence of bus operations applied in order. -/
def runOps (ops : List BusOp) (s : BusState) : BusState :=
  ops.foldl BusState.applyOp s

/-- The processor state made by `create_queue_handle`: everything empty. -/
def initialBusState : BusState :=
  { receiver := []
  , callbacks := []
  , finished := []
  , queues :=
      { factorize_queue := []
      , add_queue := []
      , build_queue := []
      , process_dependencies_queue := []
      , buildtime_execution_queue := [] }
  , fired := [] }

/-! Callback-identity accounting, used to state that a callback never
fires twice. -/

/-- Callback identifier carried by a channel message, if any. -/
def subId : QueueTask → List Nat
  | .Subscription sub => [sub.callback]
  | _ => []

/-- Callback identifiers of the subscriptions in a message list. -/
def receiverSubIds (l : List QueueTask) : List Nat := (l.map subId).flatten

/-- Callback identifiers stored in the pending tables. -/
def pendingIds (cbs : List ((Nat × WaitTaskKey) × List Nat)) : List Nat :=
  (cbs.map fun p => p.2).flatten

/-- Callback identifiers of the fired log. -/
def firedIds (l : List (Nat × WaitTaskResult)) : List Nat :=
  l.map fun p => p.1

/-- Every callback identifier currently known to the bus: waiting in the
channel, stored in a pending table, or already fired. -/
def BusState.liveIds (s : BusState) : List Nat :=
  receiverSubIds s.receiver ++ pendingIds s.callbacks ++ firedIds s.fired

/-- Callback identifier introduced by an operation, if any. -/
def opSubIds : BusOp → List Nat
  | .send t => subId t
  | _ => []

/-- Callback identifiers introduced by an operation sequence. -/
def opsSubIds (ops : List BusOp) : List Nat := (ops.map opSubIds).flatten

end RspackQueue

namespace RspackQueue

/-! Association-list lemmas. -/

theorem alLookup_isSome_iff {κ α : Type} [DecidableEq κ] (k : κ)
    (l : List (κ × α)) :
    (alLookup k l).isSome = true ↔ k ∈ l.map Prod.fst := by
  induction l with
  | nil => simp [alLookup]
  | cons p rest ih =>
    obtain ⟨k', v⟩ := p
    by_cases h : k' = k
    · subst h; simp [alLookup]
    · have h' : ¬ k = k' := fun hh => h hh.symm
      simp [alLookup, h, ih, h']

theorem alLookup_alRemove_self {κ α : Type} [DecidableEq κ] (k : κ)
    (l : List (κ × α)) : alLookup k (alRemove k l) = none := by
  induction l with
  | nil => rfl
  | cons p rest ih =>
    obtain ⟨k', v⟩ := p
    by_cases h : k' = k
    · simpa [alRemove, h] using ih
    · simp [alRemove, h, alLookup, ih]

theorem alLookup_alInsert_self {κ α : Type} [DecidableEq κ] (k : κ) (v : α)
    (l : List (κ × α)) : alLookup k (alInsert k v l) = some v := by
  induction l with
  | nil => simp [alInsert, alLookup]
  | cons p rest ih =>
    obtain ⟨k', v'⟩ := p
    by_cases h : k' = k
    · simp [alInsert, h, alLookup]
    · simp [alInsert, h, alLookup, ih]

theorem alLookup_alInsert_ne {κ α : Type} [DecidableEq κ] (k k' : κ) (v : α)
    (l : List (κ × α)) (h : k' ≠ k) :
    alLookup k (alInsert k' v l) = alLookup k l := by
  induction l with
  | nil => simp [alInsert, alLookup, h]
  | cons p rest ih =>
    obtain ⟨k'', v'⟩ := p
    by_cases h2 : k'' = k'
    · subst h2; simp [alInsert, alLookup, h]
    · simp [alInsert, h2, alLookup, ih]

theorem alLookup_append_of_none {κ α : Type} [DecidableEq κ] (k : κ) (v : α)
    (l : List (κ × α)) (h : alLookup k l = none) :
    alLookup k (l ++ [(k, v)]) = some v := by
  induction l with
  | nil => simp [alLookup]
  | cons p rest ih =>
    obtain ⟨k', v'⟩ := p
    by_cases h2 : k' = k
    · simp [alLookup, h2] at h
    · simp [alLookup, h2] at h ⊢
      exact ih h

theorem alLookup_alClear_self {κ α : Type} [DecidableEq κ] (k : κ)
    (l : List (κ × List α)) (vs : List α) (h : alLookup k l = some vs) :
    alLookup k (alClear k l) = some [] := by
  induction l with
  | nil => simp [alLookup] at h
  | cons p rest ih =>
    obtain ⟨k', vs'⟩ := p
    by_cases h2 : k' = k
    · simp [alClear, h2, alLookup]
    · simp [alLookup, h2] at h
      simp [alClear, h2, alLookup, ih h]

/-- Counting by key equals one for a present key under distinct keys. -/
theorem countP_key_eq_one {α : Type} [DecidableEq α] (l : List α) (a : α)
    (hn : l.Nodup) (ha : a ∈ l) :
    l.countP (fun k => decide (k = a)) = 1 := by
  induction l with
  | nil => simp at ha
  | cons b rest ih =>
    rw [List.nodup_cons] at hn
    by_cases h : b = a
    · subst h
      have : rest.countP (fun k => decide (k = b)) = 0 := by
        rw [List.countP_eq_zero]
        intro x hx
        simp only [decide_eq_true_eq]
        intro hxb
        exact hn.1 (hxb ▸ hx)
      simp [List.countP_cons, this]
    · have ha' : a ∈ rest := by
        rcases List.mem_cons.mp ha with h1 | h1
        · exact absurd h1.symm h
        · exact h1
      simp [List.countP_cons, h, ih hn.2 ha']

/-! Graph lemmas. -/

theorem updateIncoming_map_fst (o : Option ModuleIdentifier)
    (d : DependencyId) (tgt : ModuleIdentifier)
    (l : List (ModuleIdentifier × ModuleGraphModule)) :
    (updateIncoming o d tgt l).map Prod.fst = l.map Prod.fst := by
  induction l with
  | nil => rfl
  | cons p rest ih =>
    obtain ⟨k, mgm⟩ := p
    simp [updateIncoming, ih]

theorem set_resolved_module_step_fst (mg mg' : ModuleGraph)
    (o : Option ModuleIdentifier) (d : DependencyId)
    (tgt : ModuleIdentifier)
    (h : mg.set_resolved_module o d tgt = .ok mg') :
    mg'.module_graph_modules.map Prod.fst =
      mg.module_graph_modules.map Prod.fst := by
  unfold ModuleGraph.set_resolved_module at h
  split at h
  · cases h
    simp [updateIncoming_map_fst]
  · cases h

theorem set_resolved_module_step_deps (mg mg' : ModuleGraph)
    (o : Option ModuleIdentifier) (d : DependencyId)
    (tgt : ModuleIdentifier)
    (h : mg.set_resolved_module o d tgt = .ok mg') :
    mg'.dependency_modules = alInsert d tgt mg.dependency_modules := by
  unfold ModuleGraph.set_resolved_module at h
  split at h
  · cases h; rfl
  · cases h

theorem set_resolved_module_list_fst (deps : List DependencyId) :
    ∀ (mg mg' : ModuleGraph) (o : Option ModuleIdentifier)
      (tgt : ModuleIdentifier),
      set_resolved_module mg o deps tgt = .ok mg' →
      mg'.module_graph_modules.map Prod.fst =
        mg.module_graph_modules.map Prod.fst := by
  induction deps with
  | nil =>
    intro mg mg' o tgt h
    cases h
    rfl
  | cons d rest ih =>
    intro mg mg' o tgt h
    unfold set_resolved_module at h
    cases hstep : mg.set_resolved_module o d tgt with
    | ok mgMid =>
      rw [hstep] at h
      exact (ih mgMid mg' o tgt h).trans
        (set_resolved_module_step_fst mg mgMid o d tgt hstep)
    | error e => rw [hstep] at h; cases h
    | panic m => rw [hstep] at h; cases h

theorem set_resolved_module_keeps_binding (deps : List DependencyId) :
    ∀ (mg mg' : ModuleGraph) (o : Option ModuleIdentifier)
      (tgt : ModuleIdentifier) (d : DependencyId),
      alLookup d mg.dependency_modules = some tgt →
      set_resolved_module mg o deps tgt = .ok mg' →
      alLookup d mg'.dependency_modules = some tgt := by
  induction deps with
  | nil =>
    intro mg mg' o tgt d hb h
    cases h
    exact hb
  | cons d0 rest ih =>
    intro mg mg' o tgt d hb h
    unfold set_resolved_module at h
    cases hstep : mg.set_resolved_module o d0 tgt with
    | ok mgMid =>
      rw [hstep] at h
      have hdeps := set_resolved_module_step_deps mg mgMid o d0 tgt hstep
      have hb' : alLookup d mgMid.dependency_modules = some tgt := by
        rw [hdeps]
        by_cases hd : d0 = d
        · subst hd; exact alLookup_alInsert_self d0 tgt _
        · rw [alLookup_alInsert_ne d d0 tgt _ hd]; exact hb
      exact ih mgMid mg' o tgt d hb' h
    | error e => rw [hstep] at h; cases h
    | panic m => rw [hstep] at h; cases h

theorem set_resolved_module_resolves (deps : List DependencyId) :
    ∀ (mg mg' : ModuleGraph) (o : Option ModuleIdentifier)
      (tgt : ModuleIdentifier),
      set_resolved_module mg o deps tgt = .ok mg' →
      ∀ d ∈ deps, alLookup d mg'.dependency_modules = some tgt := by
  induction deps with
  | nil => intro mg mg' o tgt _ d hd; simp at hd
  | cons d0 rest ih =>
    intro mg mg' o tgt h d hd
    unfold set_resolved_module at h
    cases hstep : mg.set_resolved_module o d0 tgt with
    | ok mgMid =>
      rw [hstep] at h
      rcases List.mem_cons.mp hd with h1 | h1
      · subst h1
        have hdeps := set_resolved_module_step_deps mg mgMid o d tgt hstep
        have hb : alLookup d mgMid.dependency_modules = some tgt := by
          rw [hdeps]; exact alLookup_alInsert_self d tgt _
        exact set_resolved_module_keeps_binding rest mgMid mg' o tgt d hb h
      · exact ih mgMid mg' o tgt h d h1
    | error e => rw [hstep] at h; cases h
    | panic m => rw [hstep] at h; cases h

end RspackQueue

namespace RspackQueue

theorem add_module_graph_module_lookup (mg : ModuleGraph)
    (mgm : ModuleGraphModule)
    (h : mg.module_graph_module_by_identifier mgm.module_identifier = none) :
    (mg.add_module_graph_module mgm).module_graph_module_by_identifier
      mgm.module_identifier = some mgm := by
  unfold ModuleGraph.add_module_graph_module
  rw [h]
  simp only [Option.isSome_none, Bool.false_eq_true, if_false]
  unfold ModuleGraph.module_graph_module_by_identifier at h ⊢
  exact alLookup_append_of_none _ _ _ h

theorem isSome_of_map_fst_eq (mg mg' : ModuleGraph) (id : ModuleIdentifier)
    (hk : mg'.module_graph_modules.map Prod.fst =
      mg.module_graph_modules.map Prod.fst)
    (h : (mg.module_graph_module_by_identifier id).isSome = true) :
    (mg'.module_graph_module_by_identifier id).isSome = true := by
  rw [ModuleGraph.module_graph_module_by_identifier, alLookup_isSome_iff, hk]
  rw [ModuleGraph.module_graph_module_by_identifier, alLookup_isSome_iff] at h
  exact h

theorem nodeCount_eq_keys_countP (mg : ModuleGraph) (id : ModuleIdentifier) :
    mg.nodeCount id =
      (mg.module_graph_modules.map Prod.fst).countP
        (fun k => decide (k = id)) := by
  rw [ModuleGraph.nodeCount, List.countP_map]
  rfl

end RspackQueue

namespace RspackQueue

/-- C4: for every `CleanTask`, `CleanTask::run` behaves three ways: an
identity absent from the graph reports `ModuleIsCleaned` with an empty
dependent list and leaves the compilation untouched (so a second clean of
the same identity is idempotent); a node with a non-empty
incoming-connection set reports `ModuleIsUsed` with the graph unchanged;
otherwise the run reports `ModuleIsCleaned` carrying the modules the
cleaned module depended on, computed before revocation, and the node is
absent from the graph afterwards. -/
theorem clean_task_three_way (t : CleanTask) (c : Compilation) :
    match c.module_graph.module_graph_module_by_identifier
        t.module_identifier with
    | none =>
        CleanTask.run t c =
          (CleanTaskResult.ModuleIsCleaned t.module_identifier [], c)
        ∧ CleanTask.run t (CleanTask.run t c).2 = CleanTask.run t c
    | some mgm =>
        if mgm.incoming_connections ≠ ∅ then
          CleanTask.run t c =
            (CleanTaskResult.ModuleIsUsed t.module_identifier, c)
        else
          (CleanTask.run t c).1 =
            CleanTaskResult.ModuleIsCleaned t.module_identifier
              ((c.module_graph.get_module_all_depended_modules
                t.module_identifier).getD [])
          ∧ (CleanTask.run t c).2.module_graph.module_graph_module_by_identifier
              t.module_identifier = none := by
  cases hl : c.module_graph.module_graph_module_by_identifier
      t.module_identifier with
  | none =>
    have hrun : CleanTask.run t c =
        (CleanTaskResult.ModuleIsCleaned t.module_identifier [], c) := by
      simp [CleanTask.run, hl]
    simp [hrun]
  | some mgm =>
    by_cases hinc : mgm.incoming_connections = ∅
    · have hrun : CleanTask.run t c =
          (CleanTaskResult.ModuleIsCleaned t.module_identifier
            ((c.module_graph.get_module_all_depended_modules
              t.module_identifier).getD []),
           { c with module_graph :=
               c.module_graph.revoke_module t.module_identifier }) := by
        simp [CleanTask.run, hl, hinc]
      simp only [hinc, ne_eq, not_true_eq_false, if_false]
      refine ⟨by rw [hrun], ?_⟩
      rw [hrun]
      exact alLookup_alRemove_self _ _
    · have hrun : CleanTask.run t c =
          (CleanTaskResult.ModuleIsUsed t.module_identifier, c) := by
        simp [CleanTask.run, hl, hinc]
      simp only [hinc, ne_eq, not_false_eq_true, if_true]
      exact hrun

end RspackQueue

namespace RspackQueue

/-- C6: for every `AddTask` whose module identity is not yet in the graph
(and that is not the self-module case), `AddTask::run` inserts the new
graph node, resolves the dependency edges when `connect_origin` is
requested (the hypothesis `hres` is that resolution outcome), records the
identity in the entry-module set exactly when `is_entry`, invokes the
creation callback when present, and returns `ModuleAdded` carrying the
module. -/
theorem add_new_module_added (t : AddTask) (c : Compilation)
    (mg1 : ModuleGraph)
    (hsc : (t.module.is_self_module && t.connect_origin) = false)
    (habsent : c.module_graph.module_graph_module_by_identifier
      t.module.identifier = none)
    (hid : t.module_graph_module.module_identifier = t.module.identifier)
    (hres : (if t.connect_origin then
        set_resolved_module
          (c.module_graph.add_module_graph_module t.module_graph_module)
          t.original_module_identifier t.dependencies t.module.identifier
      else Outcome.ok
        (c.module_graph.add_module_graph_module t.module_graph_module)) =
      .ok mg1) :
    AddTask.run t c = .ok
      { result := .Add (.ModuleAdded t.module t.current_profile)
      , compilation :=
          { module_graph := mg1
          , entry_module_identifiers :=
              if t.is_entry then
                insert t.module.identifier c.entry_module_identifiers
              else c.entry_module_identifiers }
      , callback_invoked := t.callback.isSome }
    ∧ (mg1.module_graph_module_by_identifier t.module.identifier).isSome
        = true := by
  have hlook : (c.module_graph.add_module_graph_module
      t.module_graph_module).module_graph_module_by_identifier
      t.module.identifier = some t.module_graph_module := by
    rw [← hid]
    exact add_module_graph_module_lookup _ _ (by rw [hid]; exact habsent)
  constructor
  · unfold AddTask.run
    rw [hsc]
    simp only [Bool.false_eq_true, if_false]
    rw [habsent]
    simp only [Option.isSome_none, Bool.and_false, Bool.false_eq_true,
      if_false]
    rw [hres]
  · cases hco : t.connect_origin with
    | false =>
      rw [hco] at hres
      simp only [Bool.false_eq_true, if_false, Outcome.ok.injEq] at hres
      rw [← hres, hlook]
      rfl
    | true =>
      rw [hco] at hres
      simp only [if_true] at hres
      have hk := set_resolved_module_list_fst t.dependencies _ _ _ _ hres
      exact isSome_of_map_fst_eq _ _ _ hk (by rw [hlook]; rfl)

end RspackQueue

namespace RspackQueue

/-- Concrete module used by the C3 counterexample. -/
def cexModule : Module :=
  { identifier := "m"
  , is_self_module := false
  , diagnostics := []
  , build_result := .ok { inner := { dependencies := [] }, diagnostics := [] } }

/-- Concrete graph node used by the C3 counterexample. -/
def cexMgm : ModuleGraphModule :=
  { module_identifier := "m"
  , issuer := none
  , incoming_connections := ∅
  , all_dependencies := [] }

/-- Concrete compilation whose graph already holds a node for `"m"`. -/
def cexCompilation : Compilation :=
  { module_graph :=
      { module_graph_modules := [("m", cexMgm)]
      , dependency_modules := []
      , dependencies := [] }
  , entry_module_identifiers := ∅ }

/-- Concrete add task for `"m"` with `connect_origin = false`. -/
def cexAddTask : AddTask :=
  { original_module_identifier := none
  , module := cexModule
  , module_graph_module := cexMgm
  , dependencies := []
  , is_entry := false
  , current_profile := none
  , connect_origin := false
  , callback := none }

/-- C3 counterexample: an `AddTask` whose module identity already has a
graph node but whose `connect_origin` is `false` takes the insertion path,
not the duplicate path, and returns `ModuleAdded` — not `ModuleReused` as
the claim states for every such task.  (The graph itself is unchanged only
because node insertion is keyed by identity.) -/
theorem add_duplicate_claim_cex :
    (cexCompilation.module_graph.module_graph_module_by_identifier
      cexAddTask.module.identifier).isSome = true
    ∧ AddTask.run cexAddTask cexCompilation = .ok
        { result := .Add (.ModuleAdded cexModule none)
        , compilation := cexCompilation
        , callback_invoked := false }
    ∧ TaskResult.isModuleReused
        (TaskResult.Add (AddTaskResult.ModuleAdded cexModule none)) = false := by
  refine ⟨by decide, by decide, rfl⟩

/-- C3 (amended): for every `AddTask` with `connect_origin = true` whose
module is not the self-module wrapper and whose identity already has a
graph node, `AddTask::run` does not insert a second node (under distinct
graph keys, exactly one node for the identity remains), resolves each of
the task's dependency edges to the existing node, invokes the
module-creation callback when present, and returns `ModuleReused`. -/
theorem add_duplicate_connect_origin_reuses (t : AddTask) (c : Compilation)
    (mg' : ModuleGraph)
    (hconn : t.connect_origin = true)
    (hself : t.module.is_self_module = false)
    (hpresent : (c.module_graph.module_graph_module_by_identifier
      t.module.identifier).isSome = true)
    (hres : set_resolved_module c.module_graph t.original_module_identifier
      t.dependencies t.module.identifier = .ok mg')
    (hwf : (c.module_graph.module_graph_modules.map Prod.fst).Nodup) :
    AddTask.run t c = .ok
      { result := .Add (.ModuleReused t.module)
      , compilation := { c with module_graph := mg' }
      , callback_invoked := t.callback.isSome }
    ∧ mg'.nodeCount t.module.identifier = 1
    ∧ t.dependencies.all
        (fun d => alLookup d mg'.dependency_modules ==
          some t.module.identifier) = true := by
  refine ⟨?_, ?_, ?_⟩
  · unfold AddTask.run
    rw [hself]
    simp only [Bool.false_and, Bool.false_eq_true, if_false]
    rw [hconn, hpresent]
    simp only [Bool.and_true, Bool.true_and, if_true]
    rw [hres]
  · have hk := set_resolved_module_list_fst t.dependencies _ _ _ _ hres
    rw [nodeCount_eq_keys_countP, hk]
    refine countP_key_eq_one _ _ hwf ?_
    exact (alLookup_isSome_iff _ _).mp hpresent
  · rw [List.all_eq_true]
    intro d hd
    have := set_resolved_module_resolves t.dependencies _ _ _ _ hres d hd
    simp [this]

/-- C10: for every `AddTask`, whenever the run produces a result, the
entry-module set is extended (with the module's identity) exactly on the
`ModuleAdded` path with `is_entry` set, and is left unchanged on every
`ModuleReused` path even when `is_entry` is true; and the creation
callback is invoked exactly when present, except on the self-module path
where it is never invoked. -/
theorem add_reused_frame_effects (t : AddTask) (c : Compilation) :
    match AddTask.run t c with
    | .ok out =>
        out.compilation.entry_module_identifiers =
          (if (TaskResult.isModuleAdded out.result && t.is_entry) = true then
            insert t.module.identifier c.entry_module_identifiers
          else c.entry_module_identifiers)
        ∧ out.callback_invoked =
            (if (t.module.is_self_module && t.connect_origin) = true then
              false
            else t.callback.isSome)
    | .error _ => True
    | .panic _ => True := by
  by_cases hsc : (t.module.is_self_module && t.connect_origin) = true
  · cases hiss : t.module_graph_module.issuer with
    | none =>
      have hr : AddTask.run t c = .panic "self module should have issuer" := by
        simp [AddTask.run, hsc, hiss]
      rw [hr]
      trivial
    | some issuer =>
      cases hres : set_resolved_module c.module_graph
          t.original_module_identifier t.dependencies issuer with
      | ok mg =>
        have hr : AddTask.run t c = .ok
            { result := .Add (.ModuleReused t.module)
            , compilation := { c with module_graph := mg }
            , callback_invoked := false } := by
          simp [AddTask.run, hsc, hiss, hres]
        rw [hr]
        exact ⟨by simp [TaskResult.isModuleAdded], by simp [hsc]⟩
      | error e =>
        have hr : AddTask.run t c = .error e := by
          simp [AddTask.run, hsc, hiss, hres]
        rw [hr]
        trivial
      | panic m =>
        have hr : AddTask.run t c = .panic m := by
          simp [AddTask.run, hsc, hiss, hres]
        rw [hr]
        trivial
  · rw [Bool.not_eq_true] at hsc
    by_cases hdup : (t.connect_origin &&
        (c.module_graph.module_graph_module_by_identifier
          t.module.identifier).isSome) = true
    · cases hres : set_resolved_module c.module_graph
          t.original_module_identifier t.dependencies t.module.identifier with
      | ok mg =>
        have hr : AddTask.run t c = .ok
            { result := .Add (.ModuleReused t.module)
            , compilation := { c with module_graph := mg }
            , callback_invoked := t.callback.isSome } := by
          simp [AddTask.run, hsc, hdup, hres]
        rw [hr]
        exact ⟨by simp [TaskResult.isModuleAdded], by simp [hsc]⟩
      | error e =>
        have hr : AddTask.run t c = .error e := by
          simp [AddTask.run, hsc, hdup, hres]
        rw [hr]
        trivial
      | panic m =>
        have hr : AddTask.run t c = .panic m := by
          simp [AddTask.run, hsc, hdup, hres]
        rw [hr]
        trivial
    · rw [Bool.not_eq_true] at hdup
      cases hres : (if t.connect_origin then
          set_resolved_module
            (c.module_graph.add_module_graph_module t.module_graph_module)
            t.original_module_identifier t.dependencies t.module.identifier
        else Outcome.ok
          (c.module_graph.add_module_graph_module t.module_graph_module)) with
      | ok mg1 =>
        have hr : AddTask.run t c = .ok
            { result := .Add (.ModuleAdded t.module t.current_profile)
            , compilation :=
                { module_graph := mg1
                , entry_module_identifiers :=
                    if t.is_entry then
                      insert t.module.identifier c.entry_module_identifiers
                    else c.entry_module_identifiers }
            , callback_invoked := t.callback.isSome } := by
          unfold AddTask.run
          rw [hsc]
          simp only [Bool.false_eq_true, if_false]
          rw [hdup]
          simp only [Bool.false_eq_true, if_false]
          rw [hres]
        rw [hr]
        constructor
        · simp only [TaskResult.isModuleAdded, Bool.true_and]
        · simp [hsc]
      | error e =>
        have hr : AddTask.run t c = .error e := by
          unfold AddTask.run
          rw [hsc]
          simp only [Bool.false_eq_true, if_false]
          rw [hdup]
          simp only [Bool.false_eq_true, if_false]
          rw [hres]
        rw [hr]
        trivial
      | panic m =>
        have hr : AddTask.run t c = .panic m := by
          unfold AddTask.run
          rw [hsc]
          simp only [Bool.false_eq_true, if_false]
          rw [hdup]
          simp only [Bool.false_eq_true, if_false]
          rw [hres]
        rw [hr]
        trivial

end RspackQueue

namespace RspackQueue

/-- C1: for every `FactorizeTask` whose factory `create` call fails while
the compiler options have `bail = true`, `FactorizeTask::run` propagates
the (source-annotated) error: no `TaskResult` is produced, so the caller
can never construct an `Add` task for that dependency from this run. -/
theorem factorize_bail_aborts_run (t : FactorizeTask) (e : RspackErrorStub)
    (hfail : (t.module_factory t.createData).result = .error e)
    (hbail : t.options.bail = true) :
    FactorizeTask.run t = .error (t.annotateError e) := by
  simp [FactorizeTask.run, hfail, hbail]

/-- Witness for C1 at a concrete failing, fail-fast task. -/
def cexFailFactory : ModuleFactory := fun _ =>
  { result := .error { message := "unresolved", source_code := none }
  , file_dependencies := {"f.js"}
  , context_dependencies := ∅
  , missing_dependencies := {"missing.js"}
  , diagnostics := [{ message := "soft warning", module_identifier := none }] }

/-- Concrete factorize task shared by the C1 and C2 witnesses up to the
`bail` flag. -/
def mkFactorizeTask (bail : Bool) : FactorizeTask :=
  { module_factory := cexFailFactory
  , original_module_identifier := some "issuer-module"
  , original_module_source := some "source text"
  , original_module_context := none
  , issuer := some "issuer"
  , dependency := { id := 7, context := none }
  , dependencies := [7]
  , is_entry := false
  , resolve_options := none
  , options := { bail := bail, context := "/root" }
  , lazy_visit_modules := ∅
  , current_profile := none
  , connect_origin := true
  , callback := none }

theorem factorize_bail_aborts_run_witness :
    ((mkFactorizeTask true).module_factory
        (mkFactorizeTask true).createData).result =
      .error { message := "unresolved", source_code := none }
    ∧ (mkFactorizeTask true).options.bail = true
    ∧ FactorizeTask.run (mkFactorizeTask true) =
        .error ((mkFactorizeTask true).annotateError
          { message := "unresolved", source_code := none }) :=
  ⟨by decide, by decide,
    factorize_bail_aborts_run (mkFactorizeTask true)
      { message := "unresolved", source_code := none } (by decide) (by decide)⟩

/-- C2: for every `FactorizeTask` whose factory `create` call fails while
`bail = false`, the run still produces a `FactorizeTaskResult` whose
`factory_result` is `None`, whose diagnostics are the converted error
followed by the soft diagnostics collected during factorization, and
whose file/context/missing dependency sets are the ones from the create
data. -/
theorem factorize_tolerant_produces_result (t : FactorizeTask)
    (e : RspackErrorStub)
    (hfail : (t.module_factory t.createData).result = .error e)
    (hbail : t.options.bail = false) :
    ∃ r, FactorizeTask.run t = .ok (TaskResult.Factorize r)
      ∧ r.factory_result = none
      ∧ r.diagnostics = (t.annotateError e).toDiagnostic ::
          (t.module_factory t.createData).diagnostics
      ∧ r.file_dependencies = (t.module_factory t.createData).file_dependencies
      ∧ r.context_dependencies =
          (t.module_factory t.createData).context_dependencies
      ∧ r.missing_dependencies =
          (t.module_factory t.createData).missing_dependencies := by
  simp only [FactorizeTask.run, hfail, hbail, Bool.false_eq_true, if_false]
  exact ⟨_, rfl, rfl, rfl, rfl, rfl, rfl⟩

theorem factorize_tolerant_produces_result_witness :
    ((mkFactorizeTask false).module_factory
        (mkFactorizeTask false).createData).result =
      .error { message := "unresolved", source_code := none }
    ∧ (mkFactorizeTask false).options.bail = false
    ∧ ∃ r, FactorizeTask.run (mkFactorizeTask false) =
          .ok (TaskResult.Factorize r)
        ∧ r.factory_result = none
        ∧ r.diagnostics =
            ((mkFactorizeTask false).annotateError
              { message := "unresolved", source_code := none }).toDiagnostic ::
            ((mkFactorizeTask false).module_factory
              (mkFactorizeTask false).createData).diagnostics
        ∧ r.file_dependencies =
            ((mkFactorizeTask false).module_factory
              (mkFactorizeTask false).createData).file_dependencies
        ∧ r.context_dependencies =
            ((mkFactorizeTask false).module_factory
              (mkFactorizeTask false).createData).context_dependencies
        ∧ r.missing_dependencies =
            ((mkFactorizeTask false).module_factory
              (mkFactorizeTask false).createData).missing_dependencies :=
  ⟨by decide, by decide,
    factorize_tolerant_produces_result (mkFactorizeTask false)
      { message := "unresolved", source_code := none } (by decide) (by decide)⟩

/-- C7: every `FactorizeTaskResult` the run produces — successful or
tolerated failure — carries the freshly created exports-info triple (the
`ExportsInfo` plus the two sentinel `ExportInfo` entries with usage
`Unknown`); when no result is produced the run is a fail-fast abort
(`bail` is set), and the run never produces any other result kind and
never panics. -/
theorem factorize_exports_info_populated (t : FactorizeTask) :
    match FactorizeTask.run t with
    | .ok (TaskResult.Factorize r) =>
        r.exports_info_related =
          { exports_info := ExportsInfo.new
              (ExportInfo.new none UsageState.Unknown)
              (ExportInfo.new (some "*side effects only*") UsageState.Unknown)
          , other_exports_info := ExportInfo.new none UsageState.Unknown
          , side_effects_info :=
              ExportInfo.new (some "*side effects only*") UsageState.Unknown }
    | .ok _ => False
    | .error _ => t.options.bail = true
    | .panic _ => False := by
  cases hres : (t.module_factory t.createData).result with
  | ok fr =>
    simp only [FactorizeTask.run, hres]
    rfl
  | error e =>
    by_cases hbail : t.options.bail = true
    · simp only [FactorizeTask.run, hres, hbail, if_true]
    · rw [Bool.not_eq_true] at hbail
      simp only [FactorizeTask.run, hres, hbail, Bool.false_eq_true, if_false]
      rfl

end RspackQueue

namespace RspackQueue

/-- C9: `QueueHandler::wait_for` never fails — whenever the bus is
reachable it returns after registering the one-shot subscription, and its
only other behaviour is the fatal unreachable-bus abort; likewise
`QueueHandler::add_task` returns `Ok(())` (here: the unit value and the
extended channel) and fails only through the fatal unreachable-bus abort,
never with an ordinary error. -/
theorem queue_handler_interface_totality (h : QueueHandler)
    (task : QueueTask) (w : WaitTask) (cb : Nat) :
    (h.add_task task = .ok ((), { h with channel := h.channel ++ [task] })
      ∨ (h.connected = false ∧
          h.add_task task = .panic "Unexpected dropped receiver"))
    ∧ (h.wait_for w cb = .ok { h with channel := h.channel ++
          [QueueTask.Subscription { task := w, callback := cb }] }
      ∨ (h.connected = false ∧
          h.wait_for w cb = .panic "failed to wait task")) := by
  cases hc : h.connected with
  | true =>
    constructor
    · exact Or.inl (by simp [QueueHandler.add_task, hc])
    · exact Or.inl (by simp [QueueHandler.wait_for, hc])
  | false =>
    constructor
    · exact Or.inr ⟨rfl, by simp [QueueHandler.add_task, hc]⟩
    · exact Or.inr ⟨rfl, by simp [QueueHandler.wait_for, hc]⟩

/-- C8: whenever `BuildTask::run` produces a `BuildTaskResult`, the
`still_valid_module` hook fired exactly when the cache occasion reported
the previous result still valid — in which case the build closure's
`build_module` / `succeed_module` hooks did not run — and the result's
`from_cache` flag equals that verdict in both cases. -/
theorem build_still_valid_from_cache (t : BuildTask) (r : BuildTaskResult)
    (tr : List HookEvent)
    (h : BuildTask.run t = (.ok (.Build r), tr)) :
    tr = (if t.cache.build_module_occasion.is_cache_valid then
        [HookEvent.stillValidModule]
      else [HookEvent.buildModule, HookEvent.succeedModule])
    ∧ r.from_cache = t.cache.build_module_occasion.is_cache_valid := by
  cases hinfra : t.cache.build_module_occasion.infra_error with
  | some e =>
    simp [BuildTask.run, BuildModuleOccasion.use_cache, hinfra] at h
  | none =>
    cases hvalid : t.cache.build_module_occasion.is_cache_valid with
    | true =>
      cases hsv : t.plugin_driver.still_valid_module_result with
      | error e =>
        simp [BuildTask.run, BuildModuleOccasion.use_cache, hinfra, hvalid,
          hsv] at h
      | ok u =>
        cases hc : t.cache.build_module_occasion.cached_result with
        | error e2 =>
          simp [BuildTask.run, BuildModuleOccasion.use_cache, hinfra, hvalid,
            hsv, hc] at h
        | ok tval =>
          simp only [BuildTask.run, BuildModuleOccasion.use_cache, hinfra,
            hvalid, hsv, hc, if_true, List.nil_append] at h
          rw [Prod.mk.injEq] at h
          obtain ⟨h1, h2⟩ := h
          rw [Outcome.ok.injEq, TaskResult.Build.injEq] at h1
          subst h2
          rw [← h1]
          exact ⟨rfl, rfl⟩
    | false =>
      cases hbm : t.plugin_driver.build_module_result with
      | error e =>
        simp [BuildTask.run, BuildModuleOccasion.use_cache,
          BuildTask.buildClosure, hinfra, hvalid, hbm] at h
      | ok u1 =>
        cases hsm : t.plugin_driver.succeed_module_result with
        | error e =>
          simp [BuildTask.run, BuildModuleOccasion.use_cache,
            BuildTask.buildClosure, hinfra, hvalid, hbm, hsm] at h
        | ok u2 =>
          cases hbr : t.module.build_result with
          | error e =>
            simp [BuildTask.run, BuildModuleOccasion.use_cache,
              BuildTask.buildClosure, hinfra, hvalid, hbm, hsm, hbr] at h
          | ok tval =>
            simp only [BuildTask.run, BuildModuleOccasion.use_cache,
              BuildTask.buildClosure, hinfra, hvalid, hbm, hsm, hbr,
              Bool.false_eq_true, if_false] at h
            rw [Prod.mk.injEq] at h
            obtain ⟨h1, h2⟩ := h
            rw [Outcome.ok.injEq, TaskResult.Build.injEq] at h1
            subst h2
            rw [← h1]
            exact ⟨rfl, rfl⟩

end RspackQueue

namespace RspackQueue

/-! Permutation accounting for the completion bus: every bus operation
preserves the multiset of live callback identifiers, up to the
identifiers introduced by the operation itself. -/

theorem pendingIds_alPush_perm (k : Nat × WaitTaskKey) (v : Nat)
    (l : List ((Nat × WaitTaskKey) × List Nat)) :
    List.Perm (pendingIds (alPush k v l)) (v :: pendingIds l) := by
  induction l with
  | nil => simp [alPush, pendingIds]
  | cons p rest ih =>
    obtain ⟨k', vs⟩ := p
    by_cases h : k' = k
    · subst h
      simp only [alPush, if_true, pendingIds, List.map_cons, List.flatten_cons]
      rw [List.append_assoc]
      exact List.perm_middle
    · simp only [alPush, h, if_false, pendingIds, List.map_cons,
        List.flatten_cons]
      have ih' : List.Perm (pendingIds (alPush k v rest))
          (v :: pendingIds rest) := ih
      exact (ih'.append_left vs).trans List.perm_middle

theorem pendingIds_alClear_perm (k : Nat × WaitTaskKey)
    (l : List ((Nat × WaitTaskKey) × List Nat)) (vs : List Nat)
    (h : alLookup k l = some vs) :
    List.Perm (pendingIds l) (vs ++ pendingIds (alClear k l)) := by
  induction l with
  | nil => simp [alLookup] at h
  | cons p rest ih =>
    obtain ⟨k', vs'⟩ := p
    by_cases h2 : k' = k
    · subst h2
      simp only [alLookup, if_true, Option.some.injEq] at h
      subst h
      simp only [alClear, if_true, pendingIds, List.map_cons,
        List.flatten_cons, List.flatten, List.nil_append]
      exact List.Perm.refl _
    · simp only [alLookup, h2, if_false] at h
      simp only [alClear, h2, if_false, pendingIds, List.map_cons,
        List.flatten_cons]
      have ih' := ih h
      calc
        List.Perm (vs' ++ pendingIds rest)
            (vs' ++ (vs ++ pendingIds (alClear k rest))) := ih'.append_left vs'
        List.Perm _ (vs ++ (vs' ++ pendingIds (alClear k rest))) := by
          rw [← List.append_assoc, ← List.append_assoc]
          exact List.perm_append_comm.append_right _

end RspackQueue

namespace RspackQueue

theorem coe_perm_cons {v : Nat} {l1 l2 : List Nat}
    (h : List.Perm l1 (v :: l2)) :
    ((l1 : List Nat) : Multiset Nat) = ↑[v] + ↑l2 := by
  rw [Multiset.coe_eq_coe.mpr h]
  rfl

theorem processOne_liveIds (s : BusState) (t : QueueTask) :
    (((s.processOne t).liveIds : List Nat) : Multiset Nat) =
      ↑(subId t) + ↑s.liveIds := by
  cases t with
  | Factorize t0 => simp [BusState.processOne, BusState.liveIds, subId]
  | Add t0 => simp [BusState.processOne, BusState.liveIds, subId]
  | Build t0 => simp [BusState.processOne, BusState.liveIds, subId]
  | ProcessDependencies t0 =>
    simp [BusState.processOne, BusState.liveIds, subId]
  | BuildTimeExecution t0 =>
    simp [BusState.processOne, BusState.liveIds, subId]
  | Subscription sub =>
    simp only [BusState.processOne]
    cases hl : alLookup (get_bucket_and_key sub.task) s.finished with
    | some m =>
      simp only [BusState.liveIds, subId, firedIds, List.map_append,
        List.map_cons, List.map_nil, ← Multiset.coe_add]
      abel
    | none =>
      have hp := coe_perm_cons
        (pendingIds_alPush_perm (get_bucket_and_key sub.task) sub.callback
          s.callbacks)
      simp only [BusState.liveIds, subId, ← Multiset.coe_add, hp]
      abel

theorem drainList_liveIds (msgs : List QueueTask) :
    ∀ s : BusState,
      (((drainList msgs s).liveIds : List Nat) : Multiset Nat) =
        ↑(receiverSubIds msgs) + ↑s.liveIds := by
  induction msgs with
  | nil => intro s; simp [drainList, receiverSubIds]
  | cons t rest ih =>
    intro s
    simp only [drainList, receiverSubIds, List.map_cons, List.flatten_cons,
      ← Multiset.coe_add]
    rw [ih (s.processOne t), processOne_liveIds]
    simp only [receiverSubIds, ← Multiset.coe_add]
    abel

theorem try_process_liveIds (s : BusState) :
    ((s.try_process.liveIds : List Nat) : Multiset Nat) = ↑s.liveIds := by
  rw [BusState.try_process, drainList_liveIds]
  simp only [BusState.liveIds, ← Multiset.coe_add]
  abel

theorem complete_task_liveIds (s : BusState) (w : WaitTask)
    (r : WaitTaskResult) :
    (((s.complete_task w r).liveIds : List Nat) : Multiset Nat) =
      ↑s.liveIds := by
  cases hl : alLookup (get_bucket_and_key w) s.callbacks with
  | none =>
    simp [BusState.complete_task, hl, BusState.liveIds]
  | some cbs =>
    have hp := Multiset.coe_eq_coe.mpr
      (pendingIds_alClear_perm (get_bucket_and_key w) s.callbacks cbs hl)
    have hrev : ((cbs.reverse : List Nat) : Multiset Nat) = ↑cbs :=
      Multiset.coe_eq_coe.mpr (List.reverse_perm cbs)
    have hmap : firedIds (List.map (fun cb => (cb, r)) cbs.reverse) =
        cbs.reverse := by
      simp only [firedIds, List.map_reverse, List.map_map]
      have : ((fun p => p.1) ∘ fun cb : Nat => (cb, r)) = id := rfl
      rw [this, List.map_id]
    simp only [BusState.complete_task, hl, BusState.liveIds, firedIds,
      List.map_append, ← Multiset.coe_add]
    rw [show (List.map Prod.fst (List.map (fun cb => (cb, r)) cbs.reverse) :
        List Nat) = firedIds (List.map (fun cb => (cb, r)) cbs.reverse) from
      rfl]
    rw [hmap, hp, hrev]
    simp only [← Multiset.coe_add]
    abel

end RspackQueue

namespace RspackQueue

theorem applyOp_liveIds (s : BusState) (op : BusOp) :
    (((s.applyOp op).liveIds : List Nat) : Multiset Nat) =
      ↑(opSubIds op) + ↑s.liveIds := by
  cases op with
  | send t =>
    simp only [BusState.applyOp, BusState.liveIds, opSubIds, receiverSubIds,
      List.map_append, List.flatten_append, ← Multiset.coe_add]
    cases t with
    | Subscription sub =>
      simp [subId, ← Multiset.coe_add]
      rw [← Multiset.singleton_add]
      abel
    | Factorize t0 => simp [subId, ← Multiset.coe_add]
    | Add t0 => simp [subId, ← Multiset.coe_add]
    | Build t0 => simp [subId, ← Multiset.coe_add]
    | ProcessDependencies t0 => simp [subId, ← Multiset.coe_add]
    | BuildTimeExecution t0 => simp [subId, ← Multiset.coe_add]
  | tryProcess =>
    simp only [BusState.applyOp, opSubIds]
    rw [try_process_liveIds]
    simp
  | completeTask w r =>
    simp only [BusState.applyOp, opSubIds]
    rw [complete_task_liveIds]
    simp

theorem runOps_liveIds (ops : List BusOp) :
    ∀ s : BusState,
      (((runOps ops s).liveIds : List Nat) : Multiset Nat) =
        ↑(opsSubIds ops) + ↑s.liveIds := by
  induction ops with
  | nil => intro s; simp [runOps, opsSubIds]
  | cons op rest ih =>
    intro s
    simp only [runOps, List.foldl_cons, opsSubIds, List.map_cons,
      List.flatten_cons, ← Multiset.coe_add]
    have := ih (s.applyOp op)
    simp only [runOps, opsSubIds] at this
    rw [this, applyOp_liveIds]
    abel

theorem bus_fired_nodup (ops : List BusOp)
    (h : (opsSubIds ops).Nodup) :
    (firedIds (runOps ops initialBusState).fired).Nodup := by
  have hm := runOps_liveIds ops initialBusState
  have hinit : initialBusState.liveIds = [] := rfl
  rw [hinit] at hm
  simp only [Multiset.coe_nil, add_zero] at hm
  have hperm : List.Perm (runOps ops initialBusState).liveIds
      (opsSubIds ops) := Multiset.coe_eq_coe.mp hm
  have hnodup : (runOps ops initialBusState).liveIds.Nodup :=
    (hperm.symm).nodup h
  exact (List.Nodup.of_append_right hnodup)

end RspackQueue

namespace RspackQueue

/-- C5: for every (stage, entity) wait key, a subscription arriving after
`complete_task` has recorded that key fires synchronously with the stored
result during the next `try_process` drain (and is never stored); a
subscription already registered in the pending table fires when
`complete_task` is called for that key — each pending callback once, with
that result — after which the pending entry is empty so a repeated
completion fires nothing; and across any operation sequence with distinct
callback identities, no callback identity ever fires twice. -/
theorem completion_bus_exactly_once
    (s1 : BusState) (w1 : WaitTask) (cb1 : Nat) (r1 : WaitTaskResult)
    (s2 : BusState) (w2 : WaitTask) (cb2 : Nat) (r2 r2' : WaitTaskResult)
    (l2 : List Nat) (ops : List BusOp)
    (h1 : alLookup (get_bucket_and_key w1) s1.finished = some r1)
    (h2 : alLookup (get_bucket_and_key w2) s2.callbacks = some l2)
    (hcb2 : cb2 ∈ l2)
    (h3 : (opsSubIds ops).Nodup) :
    (BusState.try_process { s1 with receiver :=
        [QueueTask.Subscription { task := w1, callback := cb1 }] }).fired =
      s1.fired ++ [(cb1, r1)]
    ∧ (BusState.try_process { s1 with receiver :=
        [QueueTask.Subscription { task := w1, callback := cb1 }] }).callbacks =
      s1.callbacks
    ∧ (s2.complete_task w2 r2).fired =
        s2.fired ++ List.map (fun cb => (cb, r2)) l2.reverse
    ∧ (cb2, r2) ∈ (s2.complete_task w2 r2).fired
    ∧ ((s2.complete_task w2 r2).complete_task w2 r2').fired =
        (s2.complete_task w2 r2).fired
    ∧ (firedIds (runOps ops initialBusState).fired).Nodup := by
  have hfired : (s2.complete_task w2 r2).fired =
      s2.fired ++ List.map (fun cb => (cb, r2)) l2.reverse := by
    simp [BusState.complete_task, h2]
  refine ⟨?_, ?_, hfired, ?_, ?_, bus_fired_nodup ops h3⟩
  · simp [BusState.try_process, drainList, BusState.processOne, h1]
  · simp [BusState.try_process, drainList, BusState.processOne, h1]
  · rw [hfired]
    exact List.mem_append.mpr (Or.inr
      (List.mem_map.mpr ⟨cb2, List.mem_reverse.mpr hcb2, rfl⟩))
  · have hcleared : alLookup (get_bucket_and_key w2)
        (s2.complete_task w2 r2).callbacks = some [] := by
      simp only [BusState.complete_task, h2]
      exact alLookup_alClear_self _ _ l2 h2
    generalize hgen : s2.complete_task w2 r2 = sMid at hcleared ⊢
    simp [BusState.complete_task, hcleared]

/-- Empty worker queues, used by concrete bus states. -/
def emptyQueues : WorkerQueues :=
  { factorize_queue := []
  , add_queue := []
  , build_queue := []
  , process_dependencies_queue := []
  , buildtime_execution_queue := [] }

/-- Concrete bus state whose Factorize bucket finished entry for
dependency 1 is recorded. -/
def w5s1 : BusState :=
  { receiver := []
  , callbacks := []
  , finished := [((0, WaitTaskKey.Dependency 1), "mod-a")]
  , queues := emptyQueues
  , fired := [] }

/-- Concrete bus state with two callbacks pending on the Build milestone
of module `"m"`. -/
def w5s2 : BusState :=
  { receiver := []
  , callbacks := [((2, WaitTaskKey.Identifier "m"), [20, 21])]
  , finished := []
  , queues := emptyQueues
  , fired := [] }

/-- Concrete operation sequence with one subscription. -/
def w5ops : List BusOp :=
  [ BusOp.send
      (QueueTask.Subscription { task := WaitTask.Add "x", callback := 30 })
  , BusOp.tryProcess
  , BusOp.completeTask (WaitTask.Add "x") "x" ]

theorem completion_bus_exactly_once_witness :
    alLookup (get_bucket_and_key (WaitTask.Factorize 1)) w5s1.finished =
      some "mod-a"
    ∧ alLookup (get_bucket_and_key (WaitTask.Build "m")) w5s2.callbacks =
      some [20, 21]
    ∧ 20 ∈ [20, 21]
    ∧ (opsSubIds w5ops).Nodup
    ∧ ((BusState.try_process { w5s1 with receiver :=
          [QueueTask.Subscription
            { task := WaitTask.Factorize 1, callback := 10 }] }).fired =
        w5s1.fired ++ [(10, "mod-a")]
      ∧ (BusState.try_process { w5s1 with receiver :=
          [QueueTask.Subscription
            { task := WaitTask.Factorize 1, callback := 10 }] }).callbacks =
        w5s1.callbacks
      ∧ (w5s2.complete_task (WaitTask.Build "m") "m").fired =
          w5s2.fired ++
            List.map (fun cb => (cb, "m")) (List.reverse [20, 21])
      ∧ ((20 : Nat), ("m" : WaitTaskResult)) ∈
          (w5s2.complete_task (WaitTask.Build "m") "m").fired
      ∧ ((w5s2.complete_task (WaitTask.Build "m") "m").complete_task
            (WaitTask.Build "m") "m2").fired =
          (w5s2.complete_task (WaitTask.Build "m") "m").fired
      ∧ (firedIds (runOps w5ops initialBusState).fired).Nodup) :=
  ⟨rfl, rfl, by decide, by decide,
    completion_bus_exactly_once w5s1 (WaitTask.Factorize 1) 10 "mod-a"
      w5s2 (WaitTask.Build "m") 20 "m" "m2" [20, 21] w5ops
      rfl rfl (by decide) (by decide)⟩

end RspackQueue

namespace RspackQueue

/-- Concrete compilation for the amended-C3 witness: node `"m"` present,
dependency 3 known. -/
def w3Compilation : Compilation :=
  { module_graph :=
      { module_graph_modules := [("m", cexMgm)]
      , dependency_modules := []
      , dependencies := [3] }
  , entry_module_identifiers := ∅ }

/-- Concrete duplicate-discovery add task with `connect_origin` set. -/
def w3Task : AddTask :=
  { original_module_identifier := none
  , module := cexModule
  , module_graph_module := cexMgm
  , dependencies := [3]
  , is_entry := true
  , current_profile := none
  , connect_origin := true
  , callback := some () }

/-- The graph after resolving dependency 3 to the existing node. -/
def w3ResolvedGraph : ModuleGraph :=
  { module_graph_modules :=
      [("m", { module_identifier := "m"
             , issuer := none
             , incoming_connections := {ModuleGraphConnection.mk none 3}
             , all_dependencies := [] })]
  , dependency_modules := [(3, "m")]
  , dependencies := [3] }

theorem add_duplicate_connect_origin_reuses_witness :
    w3Task.connect_origin = true
    ∧ w3Task.module.is_self_module = false
    ∧ (w3Compilation.module_graph.module_graph_module_by_identifier
        w3Task.module.identifier).isSome = true
    ∧ set_resolved_module w3Compilation.module_graph
        w3Task.original_module_identifier w3Task.dependencies
        w3Task.module.identifier = .ok w3ResolvedGraph
    ∧ (w3Compilation.module_graph.module_graph_modules.map Prod.fst).Nodup
    ∧ (AddTask.run w3Task w3Compilation = .ok
        { result := .Add (.ModuleReused w3Task.module)
        , compilation := { w3Compilation with module_graph := w3ResolvedGraph }
        , callback_invoked := w3Task.callback.isSome }
      ∧ w3ResolvedGraph.nodeCount w3Task.module.identifier = 1
      ∧ w3Task.dependencies.all
          (fun d => alLookup d w3ResolvedGraph.dependency_modules ==
            some w3Task.module.identifier) = true) :=
  ⟨rfl, rfl, by decide, by decide, by decide,
    add_duplicate_connect_origin_reuses w3Task w3Compilation w3ResolvedGraph
      rfl rfl (by decide) (by decide) (by decide)⟩

/-- Concrete new module for the C6 witness. -/
def witnessAddModule : Module :=
  { identifier := "n"
  , is_self_module := false
  , diagnostics := []
  , build_result := .ok { inner := { dependencies := [] }, diagnostics := [] } }

/-- Graph node wrapper for the C6 witness module. -/
def witnessAddMgm : ModuleGraphModule :=
  { module_identifier := "n"
  , issuer := none
  , incoming_connections := ∅
  , all_dependencies := [] }

/-- Compilation with an empty graph knowing dependency 5. -/
def witnessAddCompilation : Compilation :=
  { module_graph :=
      { module_graph_modules := []
      , dependency_modules := []
      , dependencies := [5] }
  , entry_module_identifiers := ∅ }

/-- Concrete entry add task for a not-yet-present module. -/
def witnessAddTask : AddTask :=
  { original_module_identifier := none
  , module := witnessAddModule
  , module_graph_module := witnessAddMgm
  , dependencies := [5]
  , is_entry := true
  , current_profile := none
  , connect_origin := true
  , callback := some () }

/-- The graph after inserting the node and resolving dependency 5. -/
def witnessAddResolvedGraph : ModuleGraph :=
  { module_graph_modules :=
      [("n", { module_identifier := "n"
             , issuer := none
             , incoming_connections := {ModuleGraphConnection.mk none 5}
             , all_dependencies := [] })]
  , dependency_modules := [(5, "n")]
  , dependencies := [5] }

theorem add_new_module_added_witness :
    (witnessAddTask.module.is_self_module &&
      witnessAddTask.connect_origin) = false
    ∧ witnessAddCompilation.module_graph.module_graph_module_by_identifier
        witnessAddTask.module.identifier = none
    ∧ witnessAddTask.module_graph_module.module_identifier =
        witnessAddTask.module.identifier
    ∧ (if witnessAddTask.connect_origin then
        set_resolved_module
          (witnessAddCompilation.module_graph.add_module_graph_module
            witnessAddTask.module_graph_module)
          witnessAddTask.original_module_identifier
          witnessAddTask.dependencies witnessAddTask.module.identifier
      else Outcome.ok
        (witnessAddCompilation.module_graph.add_module_graph_module
          witnessAddTask.module_graph_module)) = .ok witnessAddResolvedGraph
    ∧ (AddTask.run witnessAddTask witnessAddCompilation = .ok
        { result := .Add (.ModuleAdded witnessAddTask.module
            witnessAddTask.current_profile)
        , compilation :=
            { module_graph := witnessAddResolvedGraph
            , entry_module_identifiers :=
                if witnessAddTask.is_entry then
                  insert witnessAddTask.module.identifier
                    witnessAddCompilation.entry_module_identifiers
                else witnessAddCompilation.entry_module_identifiers }
        , callback_invoked := witnessAddTask.callback.isSome }
      ∧ (witnessAddResolvedGraph.module_graph_module_by_identifier
          witnessAddTask.module.identifier).isSome = true) :=
  ⟨by decide, by decide, rfl, by decide,
    add_new_module_added witnessAddTask witnessAddCompilation
      witnessAddResolvedGraph (by decide) (by decide) rfl (by decide)⟩

/-- Concrete build task replaying a still-valid cached result. -/
def witnessBuildTask : BuildTask :=
  { module :=
      { identifier := "m"
      , is_self_module := false
      , diagnostics := []
      , build_result :=
          .ok { inner := { dependencies := [] }, diagnostics := [] } }
  , compiler_options := { bail := false, context := "/root" }
  , plugin_driver :=
      { build_module_result := .ok ()
      , succeed_module_result := .ok ()
      , still_valid_module_result := .ok () }
  , cache :=
      { build_module_occasion :=
          { is_cache_valid := true
          , cached_result :=
              .ok { inner := { dependencies := [] }, diagnostics := [] }
          , infra_error := none } }
  , current_profile := none }

theorem build_still_valid_from_cache_witness :
    BuildTask.run witnessBuildTask =
      (.ok (.Build
        { module := witnessBuildTask.module
        , build_result := { dependencies := [] }
        , diagnostics := []
        , current_profile := none
        , from_cache := true }), [HookEvent.stillValidModule])
    ∧ ([HookEvent.stillValidModule] =
        (if witnessBuildTask.cache.build_module_occasion.is_cache_valid then
          [HookEvent.stillValidModule]
        else [HookEvent.buildModule, HookEvent.succeedModule])
      ∧ (BuildTaskResult.mk witnessBuildTask.module
          { dependencies := [] } [] none true).from_cache =
        witnessBuildTask.cache.build_module_occasion.is_cache_valid) :=
  ⟨rfl,
    build_still_valid_from_cache witnessBuildTask
      (BuildTaskResult.mk witnessBuildTask.module
        { dependencies := [] } [] none true)
      [HookEvent.stillValidModule] rfl⟩

end RspackQueue
